import Mathlib

/-!
Verification model of src/platformrun/platformrun.py from the
stm32f4-energy-monitor repository.

The Python source is shallowly embedded: each relevant function is
translated into an executable Lean definition.  Subprocess and
energy-monitor interactions are modelled as explicit event traces; loops
that wait on an external condition take the awaited tick as an input (a
device that reports completion after n polls, a child process whose exit
becomes visible to p.poll() at tick e, a threading.Event that is set at
tick c) plus, where the source loop need not terminate, an explicit fuel
argument.  Python float arithmetic in prettyPrint is modelled over the
rationals.  An uncaught Python exception is modelled by the
PyResult.raised constructor.
-/

namespace Platformrun

/-- Python run-time value returned by a function call.  A Python function
that falls off the end without executing a return statement returns None;
foreground_proc (lines 103-121) does exactly that. -/
inductive PyVal where
  | none
  | int (n : Int)
  deriving DecidableEq

/-- Result of running a piece of Python code: a returned value, or an
uncaught exception carrying its message. -/
inductive PyResult (α : Type) where
  | ok (a : α)
  | raised (msg : String)
  deriving DecidableEq

/-- One per-platform block of the measurement.json configuration (see
setupMeasurement, lines 124-134, and line 194).  serialDevId is an Option
because the serial-dev-id key may be absent from the JSON document, in
which case the dictionary lookup on line 194 raises KeyError. -/
structure Config where
  energyMonitor : String
  measurementPoint : Nat
  resistor : Nat
  triggerPin : String
  serialDevId : Option String
  deriving DecidableEq

/-- Measurement result fetched from the energy monitor by
em.getMeasurement (line 141); printed by the entry point (lines 259-263).
The device arithmetic is modelled over the rationals. -/
structure Meas where
  energy : ℚ
  time : ℚ
  avg_current : ℚ
  avg_voltage : ℚ
  deriving DecidableEq

/-- The external energy-monitor device, abstracted to the part the code
observes: em.measurementCompleted(mp) returns False for the first
completedAfter polls and True afterwards, and em.getMeasurement(mp) then
yields meas. -/
structure Device where
  completedAfter : Nat
  meas : Meas
  deriving DecidableEq

/-- Observable actions performed by a driver run, in program order:
energy-monitor calls made by setupMeasurement / finishMeasurement,
process spawns, the blocking gdb script, background-proc cancellation,
and temp-file handling. -/
inductive Ev where
  | connect
  | enablePoint (mp : Nat)
  | clearRuns (mp : Nat)
  | setResistor (r : Nat)
  | setTrigger (pin : String) (mp : Nat)
  | tmpCreate
  | fgSpawn (cmd : String)
  | bgSpawn (cmd : String)
  | gdbRun (port : Nat) (fname : String)
  | bgCancel
  | unlinkTmp
  | pollCompleted (b : Bool)
  | sleep100
  | getMeasurement (mp : Nat)
  | disconnect
  deriving DecidableEq

def isConnect : Ev → Bool
  | Ev.connect => true
  | _ => false

def isDisconnect : Ev → Bool
  | Ev.disconnect => true
  | _ => false

def isGet : Ev → Bool
  | Ev.getMeasurement _ => true
  | _ => false

def isPoll : Ev → Bool
  | Ev.pollCompleted _ => true
  | _ => false

def isPollTrue : Ev → Bool
  | Ev.pollCompleted b => b
  | _ => false

def isPollFalse : Ev → Bool
  | Ev.pollCompleted b => !b
  | _ => false

def isSleep : Ev → Bool
  | Ev.sleep100 => true
  | _ => false

def isBgSpawn : Ev → Bool
  | Ev.bgSpawn _ => true
  | _ => false

def isGdb : Ev → Bool
  | Ev.gdbRun _ _ => true
  | _ => false

def isBgCancel : Ev → Bool
  | Ev.bgCancel => true
  | _ => false

/-- setupMeasurement (lines 124-134): construct the EnergyMonitor and
connect, enable the measurement point, clear its run counter, store the
resistor value, set the trigger pin; returns the connected monitor. -/
def setupMeasurement (cfg : Config) : List Ev :=
  [Ev.connect, Ev.enablePoint cfg.measurementPoint, Ev.clearRuns cfg.measurementPoint,
   Ev.setResistor cfg.resistor, Ev.setTrigger cfg.triggerPin cfg.measurementPoint]

/-- The waiting loop of finishMeasurement (lines 139-140): with a device
that reports completion after n polls, the loop performs n polls answered
False, each followed by sleep(0.1), then one poll answered True which
exits the loop. -/
def pollLoop : Nat → List Ev
  | 0 => [Ev.pollCompleted true]
  | n+1 => Ev.pollCompleted false :: Ev.sleep100 :: pollLoop n

/-- finishMeasurement (lines 136-144): poll em.measurementCompleted(mp)
every 100 ms until it is true, then fetch the measurement with
em.getMeasurement(mp), disconnect, and return the measurement. -/
def finishMeasurement (cfg : Config) (dev : Device) : List Ev × Meas :=
  (pollLoop dev.completedAfter ++
    [Ev.getMeasurement cfg.measurementPoint, Ev.disconnect], dev.meas)

/-- Outcome of prettyPrint (lines 147-154).  withUnit models the return
on line 152, the fixed-width three-decimal format with a magnitude
letter; bare models the fall-through return on line 154, which is the
plain unpadded str() of the scaled value with no unit letter. -/
inductive PPResult where
  | withUnit (scaled : ℚ) (unit : String)
  | bare (v : ℚ)
  deriving DecidableEq

/-- The units list of prettyPrint, line 148. -/
def ppUnits : List String := ["", "m", "u", "n", "p"]

/-- The loop of prettyPrint (lines 150-153) over the remaining units:
if v > 1.0 return the formatted value with the current unit, else
multiply v by 1000 and move to the next unit; falling off the list
reaches the bare return on line 154. -/
def prettyPrintGo (v : ℚ) : List String → PPResult
  | [] => PPResult.bare v
  | u :: rest => if 1 < v then PPResult.withUnit v u else prettyPrintGo (v * 1000) rest

/-- prettyPrint (lines 147-154), with its float arithmetic modelled over
the rationals. -/
def prettyPrint (v : ℚ) : PPResult := prettyPrintGo v ppUnits

/-- Whether p.poll() reports the child as exited at loop tick t: a child
whose exit becomes visible at tick e (Option.none for a child that never
exits) is reported exited at every tick from e on. -/
def pollExited : Option Nat → Nat → Bool
  | Option.some e, t => decide (e ≤ t)
  | Option.none, _ => false

/-- Whether ev.isSet() observes the threading.Event at loop tick t: an
event set at tick c (Option.none when cancel is never requested) is seen
set from tick c on. -/
def evSet : Option Nat → Nat → Bool
  | Option.some c, t => decide (c ≤ t)
  | Option.none, _ => false

/-- Whether foreground_proc created p.stdout as a pipe: only the
non-debug branch of lines 105-108 passes stdout=subprocess.PIPE, so the
pipe exists exactly when the logger is not at DEBUG level.  The identical
condition creates p.stderr. -/
def fgStdoutPiped (debug : Bool) : Bool := !debug

/-- The value foreground_proc hands back to its caller: the function body
(lines 103-121) contains no return statement, so whatever the exit status
of the child, the caller receives None. -/
def fgReturn (_exitStatus : Nat) : PyVal := PyVal.none

/-- Outcome of the foreground_proc loop: returned t r means the function
returned the value r with the loop having run t+1 iterations (the break
fired at tick t); fuelOut means the loop was still running when the fuel
ran out. -/
inductive FgOutcome where
  | returned (t : Nat) (ret : PyVal)
  | fuelOut
  deriving DecidableEq

/-- The while-True loop of foreground_proc (lines 110-121).  In the debug
branch Popen is created without pipes (line 106), so p.stdout and
p.stderr are None and the guards on lines 111 and 116 are falsy; in the
non-debug branch the level test itself is false.  Hence in both modes
out = err = '' on every iteration, no read ever happens, and the break
condition (out == '' or err == '') and p.poll() != None reduces to
p.poll() != None.  exitStatus is the status p.poll() would report; it is
never consulted and never returned. -/
def fgGo (debug : Bool) (exitAt : Option Nat) (exitStatus : Nat) :
    Nat → Nat → FgOutcome
  | 0, _ => FgOutcome.fuelOut
  | fuel+1, t =>
    let outEmpty := !(debug && fgStdoutPiped debug)
    let errEmpty := !(debug && fgStdoutPiped debug)
    if (outEmpty || errEmpty) && pollExited exitAt t then
      FgOutcome.returned t PyVal.none
    else fgGo debug exitAt exitStatus fuel (t+1)

/-- Events observable from the run_proc worker thread of background_proc
(lines 76-92), each stamped with the loop tick at which it happened. -/
inductive BgEv where
  | evSeen (t : Nat)
  | readAttrError (t : Nat)
  | pollBreak (t : Nat)
  | wait (t : Nat)
  | kill (t : Nat)
  deriving DecidableEq

def isKill : BgEv → Bool
  | BgEv.kill _ => true
  | _ => false

/-- Outcome of the run_proc worker thread: finished tr means the loop
exited normally and the code after it ran (trace tr, ending in the
unconditional p.kill() of line 92); crashed tr means an exception
escaped the loop body and the thread died without reaching line 92;
fuelOut tr means the loop was still running when the fuel ran out. -/
inductive BgOutcome where
  | finished (tr : List BgEv)
  | crashed (tr : List BgEv)
  | fuelOut (tr : List BgEv)
  deriving DecidableEq

def BgOutcome.cons (e : BgEv) : BgOutcome → BgOutcome
  | BgOutcome.finished tr => BgOutcome.finished (e :: tr)
  | BgOutcome.crashed tr => BgOutcome.crashed (e :: tr)
  | BgOutcome.fuelOut tr => BgOutcome.fuelOut (e :: tr)

/-- The run_proc worker of background_proc (lines 76-92).  Loop guard:
while not ev.isSet().  In the debug branch Popen was created WITHOUT
pipes (line 79), yet line 84 does p.stdout.read(1): p.stdout is None, so
the first loop iteration raises AttributeError and the thread dies
without ever reaching p.kill() on line 92.  In the non-debug branch
out = err = '' (line 87), so the break condition of line 88 reduces to
p.poll() != None; otherwise the loop sleeps in ev.wait(0.1) and retries.
On every normal loop exit (guard false, or break) line 92 issues
p.kill() exactly once. -/
def runProcGo (debug : Bool) (evAt exitAt : Option Nat) : Nat → Nat → BgOutcome
  | 0, _ => BgOutcome.fuelOut []
  | fuel+1, t =>
    if evSet evAt t then BgOutcome.finished [BgEv.evSeen t, BgEv.kill t]
    else if debug then BgOutcome.crashed [BgEv.readAttrError t]
    else if pollExited exitAt t then
      BgOutcome.finished [BgEv.pollBreak t, BgEv.kill t]
    else BgOutcome.cons (BgEv.wait t) (runProcGo debug evAt exitAt fuel (t+1))

/-- kill_background_proc (lines 100-101): p.set() on the threading.Event
returned by background_proc.  Setting an Event is total: it has no
failure mode and no effect other than leaving the flag set.  The Event is
modelled as its flag. -/
def kill_background_proc (_ev : Bool) : Bool := true

/-- Global tool paths (lines 41-50). -/
def stlink : String := "/home/james/tools/stlink/st-util"

def arm_gdb : String := "arm-none-eabi-gdb"

def avrdude : String := "avrdude"

def avr_objcopy : String := "avr-objcopy"

/-- stm32f0discovery driver (lines 165-172): open the measurement session,
start the st-util debug server as a background proc, run the blocking
gdb_launch script (os.system, returns only when gdb quits), cancel the
background proc, then finishMeasurement (poll, fetch, disconnect). -/
def stm32f0discovery (cfg : Config) (dev : Device) (fname : String) :
    List Ev × PyResult Meas :=
  let pre := setupMeasurement cfg ++
    [Ev.bgSpawn (stlink ++ " -p 2001 -c 0x0bb11477 -v0"),
     Ev.gdbRun 2001 fname, Ev.bgCancel]
  (pre ++ (finishMeasurement cfg dev).1, PyResult.ok (finishMeasurement cfg dev).2)

/-- atmega328p driver (lines 185-199): open the measurement session,
create a temp file and run avr-objcopy (foreground), look up the
serial-dev-id key (line 194: raises KeyError when the key is absent from
the configuration - no try/finally protects the session, so on that path
em.disconnect() is never reached), run avrdude (foreground), unlink the
temp file, then finishMeasurement.  objcopyStatus and flashStatus are the
exit statuses of the two foreground commands; foreground_proc returns
None regardless (fgReturn), so they never influence the driver. -/
def atmega328p (cfg : Config) (dev : Device) (objcopyStatus flashStatus : Nat)
    (fname tmpname : String) : List Ev × PyResult Meas :=
  let t1 := setupMeasurement cfg ++
    [Ev.tmpCreate,
     Ev.fgSpawn (avr_objcopy ++ " -O ihex " ++ fname ++ " " ++ tmpname)]
  let _r1 := fgReturn objcopyStatus
  match cfg.serialDevId with
  | Option.none => (t1, PyResult.raised "KeyError: serial-dev-id")
  | Option.some sid =>
      let t2 := t1 ++
        [Ev.fgSpawn (avrdude ++ " -F -V -c arduino -p atmega328p -e -P /dev/serial/by-id/"
          ++ sid ++ " -b 115200 -U flash:w:" ++ tmpname)]
      let _r2 := fgReturn flashStatus
      (t2 ++ [Ev.unlinkTmp] ++ (finishMeasurement cfg dev).1,
       PyResult.ok (finishMeasurement cfg dev).2)

/-- The platform names accepted by the dispatch block (lines 244-255);
same order as the source. -/
def supportedPlatforms : List String :=
  ["stm32f0discovery", "stm32vldiscovery", "atmega328p",
   "pic32mx250f128b", "msp-exp430f5529", "msp-exp430fr5739"]

/-- The dispatch block of the entry point (lines 244-257).  Line 244 is a
standalone if statement; lines 246-257 are a separate if/elif/else chain.
Consequently "stm32f0discovery" runs its driver and then also falls into
the else branch, whose raise expression (line 257) first indexes the
misspelled key PLATFROM and therefore raises KeyError before the
RuntimeError is even constructed; any unrecognized name reaches the same
else with no driver invoked.  The trace lists the driver invocations, in
order; every process spawn and every device connection in the program
happens inside a driver, so an empty trace means neither occurred. -/
def dispatch (p : String) : List String × PyResult Unit :=
  let t1 : List String := if p = "stm32f0discovery" then ["stm32f0discovery"] else []
  if p = "stm32vldiscovery" then (t1 ++ ["stm32vldiscovery"], PyResult.ok ())
  else if p = "atmega328p" then (t1 ++ ["atmega328p"], PyResult.ok ())
  else if p = "pic32mx250f128b" then (t1 ++ ["pic32mx250f128b"], PyResult.ok ())
  else if p = "msp-exp430f5529" then (t1 ++ ["msp-exp430f5529"], PyResult.ok ())
  else if p = "msp-exp430fr5739" then (t1 ++ ["msp-exp430fr5739"], PyResult.ok ())
  else (t1, PyResult.raised "KeyError: PLATFROM")

/-- Index of the first event satisfying p, List.length if none does. -/
def firstIdx (p : Ev → Bool) (l : List Ev) : Nat := l.findIdx p

/-- Concrete configuration with the serial-dev-id key present. -/
def cfgSerial : Config := ⟨"EE00", 0, 1, "PA0", Option.some "usb-Arduino_0001"⟩

/-- Concrete configuration with the serial-dev-id key absent. -/
def cfgNoSerial : Config := ⟨"EE00", 0, 1, "PA0", Option.none⟩

/-- Concrete measurement, the mocked values of the spec scenario. -/
def measW : Meas := ⟨3/2, 1/50, 3/100, 33/10⟩

/-- Device reporting completion after 1 poll. -/
def devW : Device := ⟨1, measW⟩

/-- Device reporting completion after 3 polls. -/
def devW3 : Device := ⟨3, measW⟩

/-!  Theorems.  Each claim of the specification gets one theorem below,
with witnesses and counterexamples as separate closed theorems. -/

/-- Claim C7 (amended): prettyPrint selects, among the magnitudes none,
milli, micro, nano, pico, the largest one at which the scaled value
STRICTLY exceeds 1.0, but at the unit boundary a value of exactly 1.0
DOES trigger further downscaling (the test on line 151 is the strict
v > 1.0, which 1.0 fails), just as 0.999999 does: both are rendered as
roughly 1000 in the next magnitude down. -/
theorem C7_amended :
    (∀ v : ℚ, 1 < v → prettyPrint v = PPResult.withUnit v "") ∧
    (∀ v : ℚ, ¬ 1 < v → 1 < v * 1000 →
      prettyPrint v = PPResult.withUnit (v * 1000) "m") ∧
    (∀ v : ℚ, ¬ 1 < v → ¬ 1 < v * 1000 → 1 < v * 1000 * 1000 →
      prettyPrint v = PPResult.withUnit (v * 1000 * 1000) "u") ∧
    (∀ v : ℚ, ¬ 1 < v → ¬ 1 < v * 1000 → ¬ 1 < v * 1000 * 1000 →
      1 < v * 1000 * 1000 * 1000 →
      prettyPrint v = PPResult.withUnit (v * 1000 * 1000 * 1000) "n") ∧
    (∀ v : ℚ, ¬ 1 < v → ¬ 1 < v * 1000 → ¬ 1 < v * 1000 * 1000 →
      ¬ 1 < v * 1000 * 1000 * 1000 → 1 < v * 1000 * 1000 * 1000 * 1000 →
      prettyPrint v = PPResult.withUnit (v * 1000 * 1000 * 1000 * 1000) "p") ∧
    prettyPrint 1 = PPResult.withUnit 1000 "m" ∧
    prettyPrint (999999/1000000) = PPResult.withUnit (999999/1000) "m" := by
  refine ⟨?_, ?_, ?_, ?_, ?_, ?_, ?_⟩
  · intro v h0
    simp [prettyPrint, prettyPrintGo, ppUnits, h0]
  · intro v h0 h1
    simp [prettyPrint, prettyPrintGo, ppUnits, h0, h1]
  · intro v h0 h1 h2
    simp [prettyPrint, prettyPrintGo, ppUnits, h0, h1, h2]
  · intro v h0 h1 h2 h3
    simp [prettyPrint, prettyPrintGo, ppUnits, h0, h1, h2, h3]
  · intro v h0 h1 h2 h3 h4
    simp [prettyPrint, prettyPrintGo, ppUnits, h0, h1, h2, h3, h4]
  · norm_num [prettyPrint, prettyPrintGo, ppUnits]
  · norm_num [prettyPrint, prettyPrintGo, ppUnits]

/-- Claim C7 witness: the first conjunct of the amended theorem at the
concrete input 2500000 of the spec scenario: the value stays in the base
magnitude with the empty unit. -/
theorem C7_witness : prettyPrint 2500000 = PPResult.withUnit 2500000 "" :=
  C7_amended.1 2500000 (by norm_num)

/-- Claim C7 counterexample: the claim asserts that a value of exactly
1.0 in a given magnitude does not trigger further downscaling, but
prettyPrint 1 is downscaled to 1000 in the milli magnitude (the loop
test is strict), which differs from the undownscaled rendering. -/
theorem C7_counterexample :
    prettyPrint 1 = PPResult.withUnit 1000 "m" ∧
    PPResult.withUnit (1000 : ℚ) "m" ≠ PPResult.withUnit 1 "" := by
  constructor
  · norm_num [prettyPrint, prettyPrintGo, ppUnits]
  · intro h
    rw [PPResult.withUnit.injEq] at h
    exact absurd h.1 (by norm_num)

/-- Claim C8 (amended): a value that exceeds 1.0 at no magnitude down to
pico does NOT stop at the pico floor: the loop multiplies once more (a
sixth magnitude, 1000 to the fifth power in total) and the fall-through
return on line 154 renders the value bare - plain str(), no unit letter,
no fixed width, no three-decimal format. -/
theorem C8_amended (v : ℚ) (h0 : ¬ 1 < v) (h1 : ¬ 1 < v * 1000)
    (h2 : ¬ 1 < v * 1000 * 1000) (h3 : ¬ 1 < v * 1000 * 1000 * 1000)
    (h4 : ¬ 1 < v * 1000 * 1000 * 1000 * 1000) :
    prettyPrint v = PPResult.bare (v * 1000 * 1000 * 1000 * 1000 * 1000) := by
  simp [prettyPrint, prettyPrintGo, ppUnits, h0, h1, h2, h3, h4]

/-- Claim C8 witness: the amended theorem at the concrete tiny input
10 to the minus 16. -/
theorem C8_witness :
    prettyPrint (1/10^16) =
      PPResult.bare ((1/10^16 : ℚ) * 1000 * 1000 * 1000 * 1000 * 1000) :=
  C8_amended (1/10^16) (by norm_num) (by norm_num) (by norm_num)
    (by norm_num) (by norm_num)

/-- Claim C8 counterexample: for the input 10 to the minus 16 the claim
expects the pico rendering, the value scaled by 1000 to the fourth with
unit letter p in the fixed-width format; the code instead returns the
bare constructor with the value scaled by one more factor of 1000. -/
theorem C8_counterexample :
    prettyPrint (1/10^16) = PPResult.bare (1/10) ∧
    PPResult.bare ((1 : ℚ)/10) ≠
      PPResult.withUnit ((1/10^16 : ℚ) * 1000 * 1000 * 1000 * 1000) "p" := by
  constructor
  · norm_num [prettyPrint, prettyPrintGo, ppUnits]
  · intro h
    exact PPResult.noConfusion h

/-- Event counts over the poll loop: it consists of one poll answered
True, and n polls answered False each followed by one sleep. -/
lemma pollLoop_countP (f : Ev → Bool) (n : Nat) :
    (pollLoop n).countP f =
      (if f (Ev.pollCompleted true) then 1 else 0) +
      n * ((if f (Ev.pollCompleted false) then 1 else 0) +
           (if f Ev.sleep100 then 1 else 0)) := by
  induction n with
  | zero => simp [pollLoop, List.countP_cons]
  | succ n ih =>
    simp only [pollLoop, List.countP_cons, ih]
    split_ifs <;> ring

/-- In the trace of finishMeasurement, any window of the trace that
already contains the getMeasurement call also contains a poll that was
answered True: the fetch never precedes the device reporting
completion. -/
lemma get_after_completed (mp n : Nat) :
    ∀ k, Ev.getMeasurement mp ∈


      ((pollLoop n ++ [Ev.getMeasurement mp, Ev.disconnect]).take k) →
      Ev.pollCompleted true ∈
      ((pollLoop n ++ [Ev.getMeasurement mp, Ev.disconnect]).take k) := by
  induction n with
  | zero =>
    intro k hk
    match k with
    | 0 => simp at hk
    | k+1 => simp [pollLoop, List.take_succ_cons]
  | succ n ih =>
    intro k hk
    match k with
    | 0 => simp at hk
    | 1 => simp [pollLoop, List.take_succ_cons] at hk
    | k+2 =>
      simp only [pollLoop, List.cons_append, List.take_succ_cons,
        List.mem_cons] at hk ⊢
      rcases hk with h | h | h
      · exact absurd h (by simp)
      · exact absurd h (by simp)
      · exact Or.inr (Or.inr (ih k h))

/-- Claim C3 (confirmed): finishMeasurement never fetches the measurement
before the device has reported it complete: every window of the trace
containing the getMeasurement call contains a poll answered True; the
fetch happens exactly once; there is exactly one True poll, and each of
the completedAfter unsuccessful polls is followed by one 100 ms sleep
(the fixed polling interval); the measurement reported by the device is
what is returned. -/
theorem C3_get_only_after_completed (cfg : Config) (dev : Device) :
    (∀ k, Ev.getMeasurement cfg.measurementPoint ∈
        ((finishMeasurement cfg dev).1.take k) →
      Ev.pollCompleted true ∈ ((finishMeasurement cfg dev).1.take k)) ∧
    (finishMeasurement cfg dev).1.countP isGet = 1 ∧
    (finishMeasurement cfg dev).1.countP isPollTrue = 1 ∧
    (finishMeasurement cfg dev).1.countP isPollFalse = dev.completedAfter ∧
    (finishMeasurement cfg dev).1.countP isSleep = dev.completedAfter ∧
    (finishMeasurement cfg dev).2 = dev.meas := by
  refine ⟨get_after_completed cfg.measurementPoint dev.completedAfter, ?_, ?_, ?_, ?_, rfl⟩ <;>
    simp [finishMeasurement, List.countP_append, List.countP_cons,
      pollLoop_countP, isGet, isPollTrue, isPollFalse, isSleep]

/-- Claim C3 witness: the guarded conjunct of the theorem applied at the
concrete configuration and a device completing after one poll, window
width 4 (which contains the fetch): a True poll is inside the window. -/
theorem C3_witness :
    Ev.pollCompleted true ∈ ((finishMeasurement cfgSerial devW).1.take 4) :=
  (C3_get_only_after_completed cfgSerial devW).1 4 (by decide)

/-- The first poll of the finishMeasurement tail is at its head. -/
lemma findIdx_isPoll_tail (mp n : Nat) :
    (pollLoop n ++ [Ev.getMeasurement mp, Ev.disconnect]).findIdx isPoll = 0 := by
  cases n <;> simp [pollLoop, isPoll, List.findIdx_cons]

/-- The disconnect of the finishMeasurement tail comes after all 2n+1
poll-loop events and the fetch. -/
lemma findIdx_isDisconnect_tail (mp n : Nat) :
    (pollLoop n ++ [Ev.getMeasurement mp, Ev.disconnect]).findIdx isDisconnect
      = 2 * n + 2 := by
  induction n with
  | zero => simp [pollLoop, isDisconnect, isGet, List.findIdx_cons]
  | succ n ih =>
    simp only [pollLoop, List.cons_append, List.findIdx_cons, ih]
    simp [isDisconnect]
    omega

/-- Length of the poll loop trace. -/
lemma pollLoop_length (n : Nat) : (pollLoop n).length = 2 * n + 1 := by
  induction n with
  | zero => simp [pollLoop]
  | succ n ih => simp [pollLoop, ih]; omega

/-- Claim C9 (confirmed): the stm32f0discovery driver performs its steps
in the strict order: session open (connect), then background debug-server
start, then the blocking gdb script (whose completion precedes the next
event by construction - os.system blocks), then background-server
cancel, then the first completion poll (measurement await), then the
session disconnect; the server start, gdb run and cancel each occur
exactly once in the run. -/
theorem C9_driver_order (cfg : Config) (dev : Device) (fname : String) :
    (stm32f0discovery cfg dev fname).1.countP isBgSpawn = 1 ∧
    (stm32f0discovery cfg dev fname).1.countP isGdb = 1 ∧
    (stm32f0discovery cfg dev fname).1.countP isBgCancel = 1 ∧
    firstIdx isConnect (stm32f0discovery cfg dev fname).1 <
      firstIdx isBgSpawn (stm32f0discovery cfg dev fname).1 ∧
    firstIdx isBgSpawn (stm32f0discovery cfg dev fname).1 <
      firstIdx isGdb (stm32f0discovery cfg dev fname).1 ∧
    firstIdx isGdb (stm32f0discovery cfg dev fname).1 <
      firstIdx isBgCancel (stm32f0discovery cfg dev fname).1 ∧
    firstIdx isBgCancel (stm32f0discovery cfg dev fname).1 <
      firstIdx isPoll (stm32f0discovery cfg dev fname).1 ∧
    firstIdx isPoll (stm32f0discovery cfg dev fname).1 <
      firstIdx isDisconnect (stm32f0discovery cfg dev fname).1 ∧
    firstIdx isDisconnect (stm32f0discovery cfg dev fname).1 <
      (stm32f0discovery cfg dev fname).1.length := by
  have h : (stm32f0discovery cfg dev fname).1 =
      Ev.connect :: Ev.enablePoint cfg.measurementPoint ::
      Ev.clearRuns cfg.measurementPoint :: Ev.setResistor cfg.resistor ::
      Ev.setTrigger cfg.triggerPin cfg.measurementPoint ::
      Ev.bgSpawn (stlink ++ " -p 2001 -c 0x0bb11477 -v0") ::
      Ev.gdbRun 2001 fname :: Ev.bgCancel ::
      (pollLoop dev.completedAfter ++
        [Ev.getMeasurement cfg.measurementPoint, Ev.disconnect]) := by
    simp [stm32f0discovery, setupMeasurement, finishMeasurement]
  rw [h]
  refine ⟨?_, ?_, ?_, ?_, ?_, ?_, ?_, ?_, ?_⟩ <;>
    simp [firstIdx, List.findIdx_cons, List.countP_cons, List.countP_append,
      pollLoop_countP, isConnect, isBgSpawn, isGdb, isBgCancel, isPoll,
      isDisconnect, findIdx_isPoll_tail, findIdx_isDisconnect_tail,
      pollLoop_length]

/-- Claim C1 (amended): in the atmega328p driver the exit statuses of the
foreground flash commands can never influence the run (foreground_proc
returns None whatever the child did, so a FAILED flash command still
leads to exactly one disconnect); the session is always opened (one
connect); and on every run that returns normally the session is closed
exactly once - but on a run in which the flashing step raises (the
serial-dev-id lookup of line 194 with the key absent), the exception
propagates and the session is never disconnected: there is no
scoped-release protecting it. -/
theorem C1_close_once_unless_raise (cfg : Config) (dev : Device)
    (s1 s2 u1 u2 : Nat) (fn tmp : String) :
    atmega328p cfg dev s1 u1 fn tmp = atmega328p cfg dev s2 u2 fn tmp ∧
    (atmega328p cfg dev s1 u1 fn tmp).1.countP isConnect = 1 ∧
    (∀ sid, cfg.serialDevId = Option.some sid →
      (atmega328p cfg dev s1 u1 fn tmp).1.countP isDisconnect = 1 ∧
      (atmega328p cfg dev s1 u1 fn tmp).2 = PyResult.ok dev.meas) ∧
    (cfg.serialDevId = Option.none →
      (atmega328p cfg dev s1 u1 fn tmp).1.countP isDisconnect = 0 ∧
      (atmega328p cfg dev s1 u1 fn tmp).2 =
        PyResult.raised "KeyError: serial-dev-id") := by
  refine ⟨rfl, ?_, ?_, ?_⟩
  · rcases hs : cfg.serialDevId with _ | sid <;>
      simp [atmega328p, hs, setupMeasurement, finishMeasurement,
        List.countP_cons, List.countP_append, pollLoop_countP, isConnect]
  · intro sid hs
    simp [atmega328p, hs, setupMeasurement, finishMeasurement,
      List.countP_cons, List.countP_append, pollLoop_countP, isDisconnect]
  · intro hs
    simp [atmega328p, hs, setupMeasurement, finishMeasurement,
      List.countP_cons, List.countP_append, pollLoop_countP, isDisconnect]

/-- Claim C1 witness: the amended theorem at a configuration carrying the
serial-dev-id key: the normally-returning run disconnects exactly once
and returns the measurement. -/
theorem C1_witness :
    (atmega328p cfgSerial devW3 1 1 "a.elf" "tmp0").1.countP isDisconnect = 1 ∧
    (atmega328p cfgSerial devW3 1 1 "a.elf" "tmp0").2 = PyResult.ok devW3.meas :=
  (C1_close_once_unless_raise cfgSerial devW3 1 1 0 0 "a.elf" "tmp0").2.2.1
    "usb-Arduino_0001" rfl

/-- Claim C1 counterexample: a run of the atmega328p driver in which the
measurement session was opened (one connect in the trace) and the
flashing step raised (serial-dev-id absent): the driver propagates the
exception with ZERO disconnects, so close is not invoked exactly once per
opened session on every exit path - the device connection is leaked. -/
theorem C1_counterexample :
    (atmega328p cfgNoSerial devW3 0 0 "a.elf" "tmp0").1.countP isConnect = 1 ∧
    (atmega328p cfgNoSerial devW3 0 0 "a.elf" "tmp0").1.countP isDisconnect = 0 ∧
    (atmega328p cfgNoSerial devW3 0 0 "a.elf" "tmp0").2 =
      PyResult.raised "KeyError: serial-dev-id" := by
  decide

/-- Claim C2 (confirmed): platform selection is a lookup by exact
platform-name string: every supported platform name invokes exactly its
own driver, exactly once (the trace of driver invocations is the
singleton of that name), and any unrecognized platform name invokes no
driver at all - hence no process is spawned and no device connection is
attempted, every spawn and connect happening inside a driver - and the
run dies with the fatal error raised by the else branch of line 257. -/
theorem C2_dispatch_lookup (p : String) :
    (p ∈ supportedPlatforms → (dispatch p).1 = [p]) ∧
    (p ∉ supportedPlatforms → (dispatch p).1 = [] ∧
      (dispatch p).2 = PyResult.raised "KeyError: PLATFROM") := by
  constructor
  · intro h
    simp only [supportedPlatforms, List.mem_cons, List.not_mem_nil, or_false] at h
    rcases h with h | h | h | h | h | h <;> subst h <;> decide
  · intro h
    simp only [supportedPlatforms, List.mem_cons, List.not_mem_nil, or_false,
      not_or] at h
    obtain ⟨h1, h2, h3, h4, h5, h6⟩ := h
    simp [dispatch, h1, h2, h3, h4, h5, h6]

/-- Claim C2 witness: the theorem applied at a supported name (exactly
the atmega328p driver is invoked, once) and at an unsupported name (no
driver is invoked and the error is raised). -/
theorem C2_witness :
    (dispatch "atmega328p").1 = ["atmega328p"] ∧
    (dispatch "msp430").1 = [] ∧
    (dispatch "msp430").2 = PyResult.raised "KeyError: PLATFROM" :=
  ⟨(C2_dispatch_lookup "atmega328p").1 (by decide),
   ((C2_dispatch_lookup "msp430").2 (by decide)).1,
   ((C2_dispatch_lookup "msp430").2 (by decide)).2⟩

/-- The foreground_proc loop returns, with value None, exactly at the
tick at which the child's exit becomes visible to p.poll(). -/
lemma fgGo_returns_at_exit (debug : Bool) (e s : Nat) :
    ∀ fuel t, t ≤ e → e - t < fuel →
      fgGo debug (Option.some e) s fuel t = FgOutcome.returned e PyVal.none := by
  intro fuel
  induction fuel with
  | zero => intro t h1 h2; omega
  | succ fuel ih =>
    intro t h1 h2
    by_cases he : e ≤ t
    · have ht : t = e := by omega
      subst ht
      simp [fgGo, fgStdoutPiped, pollExited]
    · have hp : pollExited (Option.some e) t = false := by
        simp [pollExited]; omega
      simp only [fgGo, hp, Bool.and_false, Bool.false_eq_true, if_false]
      exact ih (t+1) (by omega) (by omega)

/-- Claim C4 (amended): foreground_proc blocks until the spawned child
has exited - for every child, whether it exits immediately (e = 0) or
after a delay, the loop returns exactly at the tick the exit becomes
visible - but it returns None to the caller, not the child's exit
status: the function has no return statement, so the status s is
discarded. -/
theorem C4_returns_after_exit (debug : Bool) (e s fuel : Nat) (h : e < fuel) :
    fgGo debug (Option.some e) s fuel 0 = FgOutcome.returned e PyVal.none :=
  fgGo_returns_at_exit debug e s fuel 0 (Nat.zero_le e) (by omega)

/-- Claim C4 witness: the amended theorem at a child exiting at tick 2
with status 9 (delayed exit) in debug mode. -/
theorem C4_witness :
    fgGo true (Option.some 2) 9 5 0 = FgOutcome.returned 2 PyVal.none :=
  C4_returns_after_exit true 2 9 5 (by decide)

/-- Claim C4 counterexample: a child that exits immediately with status
7: foreground_proc returns the Python value None, which is not the exit
status 7 - the claim that the exit status is returned to the caller is
false. -/
theorem C4_counterexample :
    fgGo false (Option.some 0) 7 2 0 = FgOutcome.returned 0 PyVal.none ∧
    PyVal.none ≠ PyVal.int 7 := by decide

/-- The background child is eventually forcibly killed: some fuel lets
the worker thread exit its loop normally and reach the p.kill() of line
92. -/
def bgKilled (debug : Bool) (evAt exitAt : Option Nat) : Prop :=
  ∃ fuel tr t, runProcGo debug evAt exitAt fuel 0 = BgOutcome.finished tr ∧
    BgEv.kill t ∈ tr

/-- Claim C5 counterexample: a background process started in verbose
(debug) mode with an immortal child and a cancel requested at tick 1:
the worker thread dies of AttributeError on its first iteration (line 84
reads from p.stdout, which is None because line 79 created the process
without pipes), so the child is never killed at all - let alone within
one poll interval of the cancel. -/
theorem C5_counterexample : ¬ bgKilled true (Option.some 1) Option.none := by
  rintro ⟨fuel, tr, t, h, _⟩
  match fuel with
  | 0 => simp [runProcGo] at h
  | fuel+1 => simp [runProcGo, evSet] at h

/-- In non-debug mode, a cancel set at tick c makes the loop exit at its
first guard check at or after c, with the kill issued at that same tick. -/
lemma runProc_cancel_kills (c : Nat) :
    ∀ fuel t, t ≤ c → c - t < fuel →
      ∃ pre, runProcGo false (Option.some c) Option.none fuel t =
        BgOutcome.finished (pre ++ [BgEv.evSeen c, BgEv.kill c]) := by
  intro fuel
  induction fuel with
  | zero => intro t h1 h2; omega
  | succ fuel ih =>
    intro t h1 h2
    by_cases hc : c ≤ t
    · have ht : t = c := by omega
      subst ht
      exact ⟨[], by simp [runProcGo, evSet]⟩
    · have hev : evSet (Option.some c) t = false := by simp [evSet]; omega
      obtain ⟨pre, hp⟩ := ih (t+1) (by omega) (by omega)
      refine ⟨BgEv.wait t :: pre, ?_⟩
      simp [runProcGo, hev, pollExited, hp, BgOutcome.cons]

/-- Claim C5 (amended): for a background process in the normal
(non-verbose) mode, a cancel set at any tick c - including c = 0,
immediately after start - is observed at the loop's very next guard
check and the child is forcibly killed at that same tick, i.e. within
one poll interval, even though the child would otherwise run forever
(exitAt = Option.none).  In verbose mode this fails: the worker crashes
before its first kill (see the counterexample). -/
theorem C5_cancel_kills_within_poll (c fuel : Nat) (h : c < fuel) :
    ∃ pre, runProcGo false (Option.some c) Option.none fuel 0 =
      BgOutcome.finished (pre ++ [BgEv.evSeen c, BgEv.kill c]) :=
  runProc_cancel_kills c fuel 0 (Nat.zero_le c) (by omega)

/-- Claim C5 witness: the amended theorem at cancel tick 2, fuel 5: the
run finishes with the cancel observed and the kill issued at tick 2. -/
theorem C5_witness :
    ∃ pre, runProcGo false (Option.some 2) Option.none 5 0 =
      BgOutcome.finished (pre ++ [BgEv.evSeen 2, BgEv.kill 2]) :=
  C5_cancel_kills_within_poll 2 5 (by decide)

/-- A cancel whose tick lies strictly after the child's exit tick leaves
the worker thread's entire behavior unchanged, in either mode. -/
lemma runProc_late_cancel (debug : Bool) (e c : Nat) (hec : e < c) :
    ∀ fuel t, t ≤ e →
      runProcGo debug (Option.some c) (Option.some e) fuel t =
      runProcGo debug Option.none (Option.some e) fuel t := by
  intro fuel
  induction fuel with
  | zero => intro t _; rfl
  | succ fuel ih =>
    intro t ht
    have hev : evSet (Option.some c) t = false := by simp [evSet]; omega
    have hev2 : evSet Option.none t = false := rfl
    by_cases hd : debug = true
    · simp [runProcGo, hev, hev2, hd]
    · have hdf : debug = false := by simpa using hd
      subst hdf
      by_cases hp : e ≤ t
      · have hpe : pollExited (Option.some e) t = true := by
          simp [pollExited, hp]
        simp [runProcGo, hev, hev2, hpe]
      · have hpe : pollExited (Option.some e) t = false := by
          simp [pollExited]; omega
        simp [runProcGo, hev, hev2, hpe, ih (t+1) (by omega)]

/-- Claim C6 (confirmed): cancelling a background-process handle is safe
even when the child process has already exited on its own:
kill_background_proc is a total flag-set with no failure mode (it returns
the set event from either prior flag state, raising nothing), and a
cancel requested at any tick c after the child's exit tick e has no
effect whatsoever on the worker thread - its run is identical to one in
which no cancel was ever requested. -/
theorem C6_cancel_safe_after_exit (debug : Bool) (e c fuel : Nat) (h : e < c) :
    kill_background_proc true = true ∧ kill_background_proc false = true ∧
    runProcGo debug (Option.some c) (Option.some e) fuel 0 =
      runProcGo debug Option.none (Option.some e) fuel 0 :=
  ⟨rfl, rfl, runProc_late_cancel debug e c h fuel 0 (Nat.zero_le e)⟩

/-- Claim C6 witness: the theorem at a child exiting at tick 0, cancel
at tick 5: the cancelled and uncancelled runs coincide. -/
theorem C6_witness :
    kill_background_proc true = true ∧ kill_background_proc false = true ∧
    runProcGo false (Option.some 5) (Option.some 0) 3 0 =
      runProcGo false Option.none (Option.some 0) 3 0 :=
  C6_cancel_safe_after_exit false 0 5 3 (by decide)

/-- Every normal loop exit of the run_proc worker carries exactly one
kill event. -/
lemma runProc_finished_kill (debug : Bool) (evAt exitAt : Option Nat) :
    ∀ fuel t tr, runProcGo debug evAt exitAt fuel t = BgOutcome.finished tr →
      tr.countP isKill = 1 := by
  intro fuel
  induction fuel with
  | zero => intro t tr h; simp [runProcGo] at h
  | succ fuel ih =>
    intro t tr h
    simp only [runProcGo] at h
    by_cases hev : evSet evAt t = true
    · rw [if_pos hev] at h
      injection h with h
      subst h
      simp [List.countP_cons, isKill]
    · rw [if_neg hev] at h
      by_cases hd : debug = true
      · rw [if_pos hd] at h
        exact absurd h (by simp)
      · rw [if_neg hd] at h
        by_cases hp : pollExited exitAt t = true
        · rw [if_pos hp] at h
          injection h with h
          subst h
          simp [List.countP_cons, isKill]
        · rw [if_neg hp] at h
          rcases hrec : runProcGo debug evAt exitAt fuel (t+1) with tr2 | tr2 | tr2 <;>
            rw [hrec] at h <;> simp only [BgOutcome.cons] at h
          · injection h with h
            subst h
            simp [List.countP_cons, isKill, ih (t+1) tr2 hrec]
          · exact absurd h (by simp)
          · exact absurd h (by simp)

/-- A crashed run_proc worker thread never issued any kill. -/
lemma runProc_crashed_no_kill (debug : Bool) (evAt exitAt : Option Nat) :
    ∀ fuel t tr, runProcGo debug evAt exitAt fuel t = BgOutcome.crashed tr →
      tr.countP isKill = 0 := by
  intro fuel
  induction fuel with
  | zero => intro t tr h; simp [runProcGo] at h
  | succ fuel ih =>
    intro t tr h
    simp only [runProcGo] at h
    by_cases hev : evSet evAt t = true
    · rw [if_pos hev] at h
      exact absurd h (by simp)
    · rw [if_neg hev] at h
      by_cases hd : debug = true
      · rw [if_pos hd] at h
        injection h with h
        subst h
        simp [List.countP_cons, isKill]
      · rw [if_neg hd] at h
        by_cases hp : pollExited exitAt t = true
        · rw [if_pos hp] at h
          exact absurd h (by simp)
        · rw [if_neg hp] at h
          rcases hrec : runProcGo debug evAt exitAt fuel (t+1) with tr2 | tr2 | tr2 <;>
            rw [hrec] at h <;> simp only [BgOutcome.cons] at h
          · exact absurd h (by simp)
          · injection h with h
            subst h
            simp [List.countP_cons, isKill, ih (t+1) tr2 hrec]
          · exact absurd h (by simp)

/-- Claim C10 (amended): on every NORMAL exit of the polling loop -
guard observed set, or break on child exit, in particular including the
case in which the child exited on its own and no cancellation was ever
requested - the worker thread issues p.kill() exactly once before
terminating; but on a crashed exit (the verbose-mode AttributeError of
line 84) the thread terminates with no kill at all, so the unconditional
kill only covers normal loop exits. -/
theorem C10_kill_on_normal_exit (debug : Bool) (evAt exitAt : Option Nat)
    (fuel : Nat) :
    (∀ tr, runProcGo debug evAt exitAt fuel 0 = BgOutcome.finished tr →
      tr.countP isKill = 1) ∧
    (∀ tr, runProcGo debug evAt exitAt fuel 0 = BgOutcome.crashed tr →
      tr.countP isKill = 0) :=
  ⟨fun tr h => runProc_finished_kill debug evAt exitAt fuel 0 tr h,
   fun tr h => runProc_crashed_no_kill debug evAt exitAt fuel 0 tr h⟩

/-- Claim C10 witness: the theorem applied to the run with no
cancellation and a child that has already exited at tick 0: the loop
breaks at once and the trace carries exactly one kill. -/
theorem C10_witness :
    ([BgEv.pollBreak 0, BgEv.kill 0] : List BgEv).countP isKill = 1 :=
  (C10_kill_on_normal_exit false Option.none (Option.some 0) 1).1
    [BgEv.pollBreak 0, BgEv.kill 0] (by decide)

/-- Claim C10 counterexample: a verbose-mode background process whose
child exited on its own at tick 0, with no cancellation ever requested:
the worker thread terminates (AttributeError escape) having issued ZERO
kills, refuting the claim that a forced kill is issued exactly once on
every exit of the polling loop. -/
theorem C10_counterexample :
    runProcGo true Option.none (Option.some 0) 5 0 =
      BgOutcome.crashed [BgEv.readAttrError 0] ∧
    ([BgEv.readAttrError 0] : List BgEv).countP isKill = 0 := by
  decide

end Platformrun
